import Mathlib

/-!
Verification of the library-catalog exercises (authors/books CRUD).

Shallow embedding of the three storage variants that the checked claims
concern:

* `Ej3a1` — the raw-SQLite exercise `src/3a/ej3a1.py`.  The two tables are
  lists of rows kept in insertion order; `cursor.execute` of an `INSERT`
  that violates the `primary key` UNIQUE constraint raises
  `sqlite3.IntegrityError`, modelled as `Except.error`.  The declared
  `FOREIGN KEY(autor_id) REFERENCES autores(id)` is *not* enforced because
  the exercise never issues `PRAGMA foreign_keys = ON` (SQLite's default is
  off), so inserts perform no author lookup.
* `Ej3a4` — the MongoDB exercise `src/3a/ej3a4.py`.  Documents live in two
  collections; BSON `ObjectId`s are abstracted as naturals handed out by a
  `nextOid` counter, and an id string is valid exactly when it parses
  (`ObjectId(s)` raises `InvalidId` otherwise, modelled as `Except.error`).
* `Ej3b3` — the schema-validated REST exercise `src/3b/ej3b3.py`.  The
  `add_author` handler and `Author.check_schema` bodies are `pass` stubs in
  the source and `author_schema.json` is not in the repository, so that
  part is modelled from the specification (see the doc comments there).
-/

namespace Ej3a1

/-- A row of the `autores` table: `id int primary key, nombre text`. -/
structure Autor where
  id : Nat
  nombre : String
deriving DecidableEq

/-- A row of the `libros` table:
`id int primary key, titulo text, anio int, autor_id int`. -/
structure Libro where
  id : Nat
  titulo : String
  anio : Int
  autor_id : Nat
deriving DecidableEq

/-- The in-memory SQLite database (`DB_PATH = ':memory:'`) after
`crear_tablas`: both tables, rows in insertion order. -/
structure Conexion where
  autores : List Autor
  libros : List Libro
deriving DecidableEq

/-- Loop body of `insertar_autores`: for `i, autor in enumerate(autores)` an
`INSERT INTO autores (id, nombre) VALUES (i+1, autor[0])` is executed.  A
duplicate `id` violates the primary-key constraint and raises. -/
def insertar_autores_go (c : Conexion) (i : Nat) : List String → Except String Conexion
  | [] => Except.ok c
  | nombre :: rest =>
    if c.autores.any (fun a => a.id == i + 1) then
      Except.error "IntegrityError: UNIQUE constraint failed: autores.id"
    else
      insertar_autores_go { c with autores := c.autores ++ [⟨i + 1, nombre⟩] } (i + 1) rest

/-- `insertar_autores(conexion, autores)`: ids are `enumerate` indices plus
one, restarting from 1 on every call. -/
def insertar_autores (c : Conexion) (autores : List String) : Except String Conexion :=
  insertar_autores_go c 0 autores

/-- Loop body of `insertar_libros`; same numbering scheme as the authors
loop.  No author-existence check is performed and the declared foreign key
is not enforced (the `foreign_keys` pragma is never enabled). -/
def insertar_libros_go (c : Conexion) (i : Nat) :
    List (String × Int × Nat) → Except String Conexion
  | [] => Except.ok c
  | (titulo, anio, autor_id) :: rest =>
    if c.libros.any (fun l => l.id == i + 1) then
      Except.error "IntegrityError: UNIQUE constraint failed: libros.id"
    else
      insertar_libros_go
        { c with libros := c.libros ++ [⟨i + 1, titulo, anio, autor_id⟩] } (i + 1) rest

/-- `insertar_libros(conexion, libros)` with `libros` a list of
`(titulo, anio, autor_id)` tuples. -/
def insertar_libros (c : Conexion) (libros : List (String × Int × Nat)) :
    Except String Conexion :=
  insertar_libros_go c 0 libros

/-- `consultar_libros`: `SELECT libros.titulo, libros.anio, autores.nombre
FROM libros JOIN autores ON (libros.autor_id = autores.id)` — an inner join
with no `ORDER BY`; rows come out in table order (`libros` is the outer
table, matching authors in `autores` order). -/
def consultar_libros (c : Conexion) : List (String × Int × String) :=
  c.libros.flatMap (fun l =>
    (c.autores.filter (fun a => a.id == l.autor_id)).map
      (fun a => (l.titulo, l.anio, a.nombre)))

/-- SQL `LIKE` matching (fuelled so that it is structurally recursive):
`%` matches any run of characters, `_` any single character, and ordinary
characters compare ASCII-case-insensitively. -/
def likeMatchAux : Nat → List Char → List Char → Bool
  | 0, _, _ => false
  | _ + 1, [], [] => true
  | _ + 1, [], _ :: _ => false
  | n + 1, '%' :: ps, s =>
    likeMatchAux n ps s ||
      (match s with
       | [] => false
       | _ :: s2 => likeMatchAux n ('%' :: ps) s2)
  | _ + 1, '_' :: _, [] => false
  | n + 1, '_' :: ps, _ :: s2 => likeMatchAux n ps s2
  | _ + 1, _ :: _, [] => false
  | n + 1, p :: ps, c :: s2 => (p.toLower == c.toLower) && likeMatchAux n ps s2

/-- Every recursive call of `likeMatchAux` shrinks `p.length + s.length`,
so this fuel always suffices. -/
def likeMatch (p s : List Char) : Bool :=
  likeMatchAux (p.length + s.length + 1) p s

/-- `buscar_libros_por_autor`: the same join as `consultar_libros` but
filtered by `WHERE autores.nombre LIKE nombre_autor`.  The `SELECT` lists
*three* columns (`titulo`, `anio`, `nombre`) even though the comment above
it promises `(titulo, anio)` pairs, and there is no `ORDER BY`. -/
def buscar_libros_por_autor (c : Conexion) (nombre_autor : String) :
    List (String × Int × String) :=
  c.libros.flatMap (fun l =>
    (c.autores.filter
        (fun a => a.id == l.autor_id && likeMatch nombre_autor.toList a.nombre.toList)).map
      (fun a => (l.titulo, l.anio, a.nombre)))

/-- Effect of `UPDATE libros SET titulo = t WHERE id = id_libro` on one row. -/
def setTitulo (t : String) (id_libro : Nat) (l : Libro) : Libro :=
  if l.id == id_libro then { l with titulo := t } else l

/-- Effect of `UPDATE libros SET anio = y WHERE id = id_libro` on one row. -/
def setAnio (y : Int) (id_libro : Nat) (l : Libro) : Libro :=
  if l.id == id_libro then { l with anio := y } else l

/-- Python truthiness of an `Optional[str]`: `None` and `""` are falsy. -/
def truthyStr : Option String → Bool
  | none => false
  | some t => !(t == "")

/-- Python truthiness of an `Optional[int]`: `None` and `0` are falsy. -/
def truthyInt : Option Int → Bool
  | none => false
  | some y => !(y == 0)

/-- `actualizar_libro(conexion, id_libro, nuevo_titulo=None, nuevo_anio=None)`:
each field is written only under `if nuevo_titulo:` / `if nuevo_anio:`
(truthiness, not an `is not None` test).  The Python function returns
`None`; the `Unit` component records that the caller gets no value back. -/
def actualizar_libro (c : Conexion) (id_libro : Nat)
    (nuevo_titulo : Option String) (nuevo_anio : Option Int) : Unit × Conexion :=
  let c1 := if truthyStr nuevo_titulo then
      { c with libros := c.libros.map (setTitulo (nuevo_titulo.getD "") id_libro) }
    else c
  let c2 := if truthyInt nuevo_anio then
      { c1 with libros := c1.libros.map (setAnio (nuevo_anio.getD 0) id_libro) }
    else c1
  ((), c2)

/-- `eliminar_libro(conexion, id_libro)`: `DELETE FROM libros WHERE id = …`;
returns `None` (the `Unit` component). -/
def eliminar_libro (c : Conexion) (id_libro : Nat) : Unit × Conexion :=
  ((), { c with libros := c.libros.filter (fun l => !(l.id == id_libro)) })

/-- Display name of the author row whose `id` is `aid` (first match; `""`
when absent).  Used only to state join correctness. -/
def autorNombre (c : Conexion) (aid : Nat) : String :=
  match c.autores.find? (fun a => a.id == aid) with
  | some a => a.nombre
  | none => ""

end Ej3a1

namespace Ej3a4

/-- A document of the `autores` collection. -/
structure AutorDoc where
  oid : Nat
  nombre : String
deriving DecidableEq

/-- A document of the `libros` collection. -/
structure LibroDoc where
  oid : Nat
  titulo : String
  anio : Int
  autor_id : Nat
deriving DecidableEq

/-- The `biblioteca` MongoDB database: two collections in insertion order
plus the driver's supply of fresh `ObjectId`s (abstracted as a counter). -/
structure MongoDB where
  autores : List AutorDoc
  libros : List LibroDoc
  nextOid : Nat
deriving DecidableEq

/-- `ObjectId(s)`: BSON object ids are abstracted as naturals, and a
string is a valid id exactly when it is a numeral; on any other string
the constructor raises `bson.errors.InvalidId` (callers model that as
`Except.error`). -/
def parseObjectId (s : String) : Option Nat :=
  if !s.toList.isEmpty && s.toList.all Char.isDigit then
    some (s.toList.foldl (fun n c => 10 * n + (c.toNat - 48)) 0)
  else none

/-- `insertar_libros(db, libros)` with `(titulo, anio, autor_id)` tuples:
the list comprehension converts every `autor_id` string through
`ObjectId(...)` (raising on an invalid one before anything is inserted),
then `insert_many` appends all documents with fresh ids and the ids are
returned as strings.  No author-existence check is performed. -/
def insertar_libros (db : MongoDB) (libros : List (String × Int × String)) :
    Except String (MongoDB × List String) :=
  match libros.mapM (fun lib => (parseObjectId lib.2.2).map (fun aid => (lib.1, lib.2.1, aid))) with
  | none => Except.error "InvalidId: not a valid ObjectId"
  | some docs =>
    let nuevos := docs.enum.map
      (fun p => LibroDoc.mk (db.nextOid + p.1) p.2.1 p.2.2.1 p.2.2.2)
    Except.ok
      ({ db with libros := db.libros ++ nuevos, nextOid := db.nextOid + nuevos.length },
       nuevos.map (fun d => toString d.oid))

/-- A projected row `{titulo, anio, autor_nombre}` of the lookup pipeline. -/
abbrev Row := String × Int × String

/-- Lexicographic comparison of character lists by code point; the order
MongoDB's `$sort` uses on the (ASCII) strings of these exercises. -/
def charListLt : List Char → List Char → Bool
  | [], [] => false
  | [], _ :: _ => true
  | _ :: _, [] => false
  | a :: as, b :: bs => decide (a < b) || (a == b && charListLt as bs)

/-- String comparison used by the `$sort` stage. -/
def strLtb (a b : String) : Bool :=
  charListLt a.toList b.toList

/-- The key order of `$sort: {autor_nombre: 1, titulo: 1}`: by author
display name, ties broken by title. -/
def RowLe (x y : Row) : Prop :=
  strLtb x.2.2 y.2.2 = true ∨ (x.2.2 = y.2.2 ∧ (strLtb x.1 y.1 = true ∨ x.1 = y.1))

instance : DecidableRel RowLe := fun x y => by
  unfold RowLe
  infer_instance

/-- The `$lookup` + `$unwind` + `$project` stages of `consultar_libros`:
for each book, one row per author document whose `_id` equals the book's
`autor_id` (`$unwind` drops books with no match — inner-join semantics). -/
def joinRows (db : MongoDB) : List Row :=
  db.libros.flatMap (fun l =>
    (db.autores.filter (fun a => a.oid == l.autor_id)).map
      (fun a => (l.titulo, l.anio, a.nombre)))

/-- `consultar_libros(db)`: the aggregation pipeline — lookup rows passed
through the stable `$sort` on `(autor_nombre, titulo)`. -/
def consultar_libros (db : MongoDB) : List Row :=
  List.insertionSort RowLe (joinRows db)

/-- `find_one` on the `autores` collection by exact `nombre`. -/
def findAutorByNombre (db : MongoDB) (nombre : String) : Option AutorDoc :=
  db.autores.find? (fun a => a.nombre == nombre)

/-- Int comparison for the `$sort {anio: 1}` stage. -/
def AnioLe (x y : String × Int) : Prop :=
  x.2 ≤ y.2

instance : DecidableRel AnioLe := fun x y => by
  unfold AnioLe
  infer_instance

/-- `buscar_libros_por_autor(db, nombre_autor)`: resolves the author by
exact name, returns `[]` when absent, otherwise the author's books as
`(titulo, anio)` pairs sorted by `anio` ascending. -/
def buscar_libros_por_autor (db : MongoDB) (nombre_autor : String) :
    List (String × Int) :=
  match findAutorByNombre db nombre_autor with
  | none => []
  | some autor =>
    List.insertionSort AnioLe
      ((db.libros.filter (fun l => l.autor_id == autor.oid)).map
        (fun l => (l.titulo, l.anio)))

/-- `update_one` with a `$set` document represented by the row transformer
`f`: the first document matching the `_id` filter is rewritten; the
returned flag is `modified_count > 0`, and MongoDB counts a document as
modified only when the update actually changed it. -/
def update_one (oid : Nat) (f : LibroDoc → LibroDoc) : List LibroDoc → Bool × List LibroDoc
  | [] => (false, [])
  | x :: xs =>
    if x.oid == oid then (!(f x == x), f x :: xs)
    else
      let r := update_one oid f xs
      (r.1, x :: r.2)

/-- The `$set` document built by `actualizar_libro`: `titulo` and `anio`
are included exactly when the corresponding argument `is not None`. -/
def setCampos (nuevo_titulo : Option String) (nuevo_anio : Option Int)
    (l : LibroDoc) : LibroDoc :=
  let l1 := match nuevo_titulo with
    | some t => { l with titulo := t }
    | none => l
  match nuevo_anio with
  | some y => { l1 with anio := y }
  | none => l1

/-- `actualizar_libro(db, id_libro, nuevo_titulo=None, nuevo_anio=None)`:
when both arguments are `None` the update document is empty and the
function returns `True` *before* touching the database (no existence
check, no `ObjectId` parse); otherwise `update_one` runs on the parsed id
and `modified_count > 0` is returned. -/
def actualizar_libro (db : MongoDB) (id_libro : String)
    (nuevo_titulo : Option String) (nuevo_anio : Option Int) :
    Except String (Bool × MongoDB) :=
  if nuevo_titulo = none ∧ nuevo_anio = none then Except.ok (true, db)
  else
    match parseObjectId id_libro with
    | none => Except.error "InvalidId: not a valid ObjectId"
    | some oid =>
      let r := update_one oid (setCampos nuevo_titulo nuevo_anio) db.libros
      Except.ok (r.1, { db with libros := r.2 })

/-- `delete_one` on the `libros` collection: removes the first matching
document; the flag is `deleted_count > 0`. -/
def delete_one (oid : Nat) : List LibroDoc → Bool × List LibroDoc
  | [] => (false, [])
  | x :: xs =>
    if x.oid == oid then (true, xs)
    else
      let r := delete_one oid xs
      (r.1, x :: r.2)

/-- `eliminar_libro(db, id_libro)`: parses the id (raising on an invalid
string) and returns `deleted_count > 0`. -/
def eliminar_libro (db : MongoDB) (id_libro : String) :
    Except String (Bool × MongoDB) :=
  match parseObjectId id_libro with
  | none => Except.error "InvalidId: not a valid ObjectId"
  | some oid =>
    let r := delete_one oid db.libros
    Except.ok (r.1, { db with libros := r.2 })

/-- Display name of the author document with id `aid` (first match; `""`
when absent).  Used only to state join correctness. -/
def autorNombre (db : MongoDB) (aid : Nat) : String :=
  match db.autores.find? (fun a => a.oid == aid) with
  | some a => a.nombre
  | none => ""

end Ej3a4

namespace Ej3b3

/-- A JSON scalar as it appears in the test payloads (strings, numbers). -/
inductive JsonVal where
  | str (s : String)
  | num (n : Int)
deriving DecidableEq

/-- A JSON object payload: keys in document order. -/
abbrev Payload := List (String × JsonVal)

/-- First value bound to key `k`, as in a JSON object. -/
def lookupKey (p : Payload) (k : String) : Option JsonVal :=
  match p.find? (fun kv => kv.1 == k) with
  | some kv => some kv.2
  | none => none

/-- Modelled from the spec: `Author.check_schema` / `author_schema.json`.
The body of `Author.check_schema` in `src/3b/ej3b3.py` is a `pass` stub
and `author_schema.json` is not in the repository; the schema gate is
modelled from the specification — required key `name` of string type,
non-empty, and *no additional keys beyond the declared set* (`{"name":
"Hemingway", "age": 61}` is rejected). -/
def author_check_schema (p : Payload) : Bool :=
  (match lookupKey p "name" with
   | some (JsonVal.str s) => !(s == "")
   | _ => false) &&
  p.all (fun kv => kv.1 == "name")

/-- The REST service state: persisted authors and the next autoincrement id. -/
structure ApiState where
  authors : List (Nat × String)
  nextId : Nat
deriving DecidableEq

/-- Modelled from the spec: the `POST /authors` handler `add_author`, whose
body in `src/3b/ej3b3.py` is a `pass` stub.  Per the specification and the
handler's docstring: validate the payload against the author schema first;
on failure answer 400 and persist nothing; on success persist a new author
and answer 201.  The result is `(HTTP status, new state)`. -/
def add_author (st : ApiState) (p : Payload) : Nat × ApiState :=
  if author_check_schema p then
    match lookupKey p "name" with
    | some (JsonVal.str s) =>
      (201, { authors := st.authors ++ [(st.nextId, s)], nextId := st.nextId + 1 })
    | _ => (400, st)
  else (400, st)

end Ej3b3

/-- Every pair of character lists is related by `charListLt` one way, equal,
or related the other way. -/
theorem charListLt_trichot : ∀ a b : List Char,
    Ej3a4.charListLt a b = true ∨ a = b ∨ Ej3a4.charListLt b a = true
  | [], [] => Or.inr (Or.inl rfl)
  | [], _ :: _ => Or.inl rfl
  | _ :: _, [] => Or.inr (Or.inr rfl)
  | a :: as, b :: bs => by
    rcases lt_trichotomy a b with h | h | h
    · exact Or.inl (by simp [Ej3a4.charListLt, h])
    · subst h
      rcases charListLt_trichot as bs with h2 | h2 | h2
      · exact Or.inl (by simp [Ej3a4.charListLt, h2])
      · exact Or.inr (Or.inl (by rw [h2]))
      · exact Or.inr (Or.inr (by simp [Ej3a4.charListLt, h2]))
    · exact Or.inr (Or.inr (by simp [Ej3a4.charListLt, h]))

/-- `charListLt` is transitive. -/
theorem charListLt_trans : ∀ a b c : List Char,
    Ej3a4.charListLt a b = true → Ej3a4.charListLt b c = true →
    Ej3a4.charListLt a c = true
  | [], [], _ => by intro h1 _; exact absurd h1 (by simp [Ej3a4.charListLt])
  | [], _ :: _, [] => by intro _ h2; exact absurd h2 (by simp [Ej3a4.charListLt])
  | [], _ :: _, _ :: _ => by intro _ _; rfl
  | _ :: _, [], _ => by intro h1 _; exact absurd h1 (by simp [Ej3a4.charListLt])
  | _ :: _, _ :: _, [] => by intro _ h2; exact absurd h2 (by simp [Ej3a4.charListLt])
  | x :: xs, y :: ys, z :: zs => by
    intro h1 h2
    simp only [Ej3a4.charListLt, Bool.or_eq_true, Bool.and_eq_true,
      decide_eq_true_eq, beq_iff_eq] at h1 h2 ⊢
    rcases h1 with h1 | ⟨hxy, h1⟩
    · rcases h2 with h2 | ⟨hyz, _⟩
      · exact Or.inl (lt_trans h1 h2)
      · exact Or.inl (lt_of_lt_of_eq h1 hyz)
    · rcases h2 with h2 | ⟨hyz, h2⟩
      · exact Or.inl (lt_of_eq_of_lt hxy h2)
      · exact Or.inr ⟨hxy.trans hyz, charListLt_trans xs ys zs h1 h2⟩

/-- Two strings compare by `strLtb` one way, are equal, or compare the
other way. -/
theorem strLtb_trichot (a b : String) :
    Ej3a4.strLtb a b = true ∨ a = b ∨ Ej3a4.strLtb b a = true := by
  rcases charListLt_trichot a.toList b.toList with h | h | h
  · exact Or.inl h
  · refine Or.inr (Or.inl ?_)
    cases a; cases b
    exact congrArg String.mk (by simpa [String.toList] using h)
  · exact Or.inr (Or.inr h)

/-- `strLtb` is transitive. -/
theorem strLtb_trans {a b c : String} (h1 : Ej3a4.strLtb a b = true)
    (h2 : Ej3a4.strLtb b c = true) : Ej3a4.strLtb a c = true :=
  charListLt_trans a.toList b.toList c.toList h1 h2

instance : IsTotal Ej3a4.Row Ej3a4.RowLe := by
  constructor
  intro x y
  rcases strLtb_trichot x.2.2 y.2.2 with h | h | h
  · exact Or.inl (Or.inl h)
  · rcases strLtb_trichot x.1 y.1 with h2 | h2 | h2
    · exact Or.inl (Or.inr ⟨h, Or.inl h2⟩)
    · exact Or.inl (Or.inr ⟨h, Or.inr h2⟩)
    · exact Or.inr (Or.inr ⟨h.symm, Or.inl h2⟩)
  · exact Or.inr (Or.inl h)

instance : IsTrans Ej3a4.Row Ej3a4.RowLe := by
  constructor
  intro x y z hxy hyz
  rcases hxy with h1 | ⟨e1, t1⟩
  · rcases hyz with h2 | ⟨e2, _⟩
    · exact Or.inl (strLtb_trans h1 h2)
    · exact Or.inl (e2 ▸ h1)
  · rcases hyz with h2 | ⟨e2, t2⟩
    · exact Or.inl (e1 ▸ h2)
    · refine Or.inr ⟨e1.trans e2, ?_⟩
      rcases t1 with t1 | t1
      · rcases t2 with t2 | t2
        · exact Or.inl (strLtb_trans t1 t2)
        · exact Or.inl (t2 ▸ t1)
      · rcases t2 with t2 | t2
        · exact Or.inl (t1 ▸ t2)
        · exact Or.inr (t1.trans t2)

/-- A filter that produced the singleton `[a]` means `find?` returns `a`. -/
theorem find_eq_of_filter_singleton {α : Type} (p : α → Bool) :
    ∀ (l : List α) (a : α), l.filter p = [a] → l.find? p = some a := by
  intro l
  induction l with
  | nil => intro a h; simp at h
  | cons x xs ih =>
    intro a h
    cases hpx : p x with
    | true =>
      rw [List.filter_cons_of_pos hpx] at h
      rw [List.find?_cons_of_pos _ hpx]
      exact congrArg some (List.cons_eq_cons.mp h).1
    | false =>
      rw [List.filter_cons_of_neg (by simp [hpx])] at h
      rw [List.find?_cons_of_neg _ (by simp [hpx])]
      exact ih a h

/-- A `flatMap` whose blocks are all singletons is a `map`. -/
theorem flatMap_eq_map_of_singleton {α β : Type} (F : α → List β) (G : α → β) :
    ∀ L : List α, (∀ a ∈ L, F a = [G a]) → L.flatMap F = L.map G := by
  intro L
  induction L with
  | nil => intro _; rfl
  | cons x xs ih =>
    intro h
    rw [List.flatMap_cons, List.map_cons, h x (List.mem_cons_self x xs),
      ih (fun a ha => h a (List.mem_cons_of_mem x ha))]
    rfl

/-- A map that fixes every element of the list is the identity on it. -/
theorem map_eq_self_of {α : Type} (f : α → α) :
    ∀ l : List α, (∀ a ∈ l, f a = a) → l.map f = l := by
  intro l h
  rw [List.map_congr_left h]
  simp

/-- `delete_one` on a list with no matching document deletes nothing and
reports `deleted_count = 0`. -/
theorem delete_one_not_found (oid : Nat) :
    ∀ l : List Ej3a4.LibroDoc, (∀ x ∈ l, x.oid ≠ oid) →
      Ej3a4.delete_one oid l = (false, l) := by
  intro l
  induction l with
  | nil => intro _; rfl
  | cons x xs ih =>
    intro h
    have hx : (x.oid == oid) = false := by
      simp [h x (List.mem_cons_self x xs)]
    simp [Ej3a4.delete_one, hx,
      ih (fun a ha => h a (List.mem_cons_of_mem x ha))]

/-- `update_one` on a list with no matching document modifies nothing and
reports `modified_count = 0`. -/
theorem update_one_not_found (oid : Nat) (f : Ej3a4.LibroDoc → Ej3a4.LibroDoc) :
    ∀ l : List Ej3a4.LibroDoc, (∀ x ∈ l, x.oid ≠ oid) →
      Ej3a4.update_one oid f l = (false, l) := by
  intro l
  induction l with
  | nil => intro _; rfl
  | cons x xs ih =>
    intro h
    have hx : (x.oid == oid) = false := by
      simp [h x (List.mem_cons_self x xs)]
    simp [Ej3a4.update_one, hx,
      ih (fun a ha => h a (List.mem_cons_of_mem x ha))]

/-- Running `update_one` a second time with an idempotent, id-preserving
`$set` leaves the list of the first run unchanged. -/
theorem update_one_idem (oid : Nat) (f : Ej3a4.LibroDoc → Ej3a4.LibroDoc)
    (hf : ∀ x, f (f x) = f x) (hoid : ∀ x, (f x).oid = x.oid) :
    ∀ l : List Ej3a4.LibroDoc,
      (Ej3a4.update_one oid f (Ej3a4.update_one oid f l).2).2 =
        (Ej3a4.update_one oid f l).2 := by
  intro l
  induction l with
  | nil => rfl
  | cons x xs ih =>
    cases hx : (x.oid == oid) with
    | true =>
      have hfx : ((f x).oid == oid) = true := by
        rw [hoid]; exact hx
      simp [Ej3a4.update_one, hx, hfx, hf]
    | false =>
      simp [Ej3a4.update_one, hx, ih]

/-- The `$set` document of `actualizar_libro` is idempotent on a document. -/
theorem setCampos_idem (t : Option String) (y : Option Int)
    (x : Ej3a4.LibroDoc) :
    Ej3a4.setCampos t y (Ej3a4.setCampos t y x) = Ej3a4.setCampos t y x := by
  cases t <;> cases y <;> rfl

/-- The `$set` document of `actualizar_libro` never touches `_id`. -/
theorem setCampos_oid (t : Option String) (y : Option Int)
    (x : Ej3a4.LibroDoc) :
    (Ej3a4.setCampos t y x).oid = x.oid := by
  cases t <;> cases y <;> rfl

/-- `update_one` preserves, on every document of the collection, any
projection its `$set` document leaves untouched. -/
theorem update_one_map_frame {α : Type} (oid : Nat)
    (f : Ej3a4.LibroDoc → Ej3a4.LibroDoc) (pr : Ej3a4.LibroDoc → α)
    (hpr : ∀ x, pr (f x) = pr x) :
    ∀ l : List Ej3a4.LibroDoc,
      (Ej3a4.update_one oid f l).2.map pr = l.map pr := by
  intro l
  induction l with
  | nil => rfl
  | cons x xs ih =>
    cases hx : (x.oid == oid) with
    | true => simp [Ej3a4.update_one, hx, hpr]
    | false => simp [Ej3a4.update_one, hx, ih]

/-- After `update_one` with an id-preserving `$set`, the first document
matching the `_id` filter is the updated image of the document that
matched before the update. -/
theorem update_one_find (oid : Nat) (f : Ej3a4.LibroDoc → Ej3a4.LibroDoc)
    (hoid : ∀ x, (f x).oid = x.oid) :
    ∀ l : List Ej3a4.LibroDoc,
      (Ej3a4.update_one oid f l).2.find? (fun x => x.oid == oid) =
        (l.find? (fun x => x.oid == oid)).map f := by
  intro l
  induction l with
  | nil => rfl
  | cons x xs ih =>
    cases hx : (x.oid == oid) with
    | true =>
      have hfx : ((f x).oid == oid) = true := by rw [hoid]; exact hx
      simp [Ej3a4.update_one, hx, List.find?, hfx]
    | false =>
      simp [Ej3a4.update_one, hx, List.find?, ih]

/-- The authors insertion loop preserves distinctness of the stored ids
(on success): a clashing id is rejected by the primary-key constraint. -/
theorem insertar_autores_go_nodup :
    ∀ (nombres : List String) (c : Ej3a1.Conexion) (i : Nat) (c2 : Ej3a1.Conexion),
      (c.autores.map Ej3a1.Autor.id).Nodup →
      Ej3a1.insertar_autores_go c i nombres = Except.ok c2 →
      (c2.autores.map Ej3a1.Autor.id).Nodup := by
  intro nombres
  induction nombres with
  | nil =>
    intro c i c2 h hh
    cases hh
    exact h
  | cons nom rest ih =>
    intro c i c2 h hh
    unfold Ej3a1.insertar_autores_go at hh
    cases hany : c.autores.any (fun a => a.id == i + 1) with
    | true => rw [hany] at hh; cases hh
    | false =>
      rw [hany] at hh
      simp only [Bool.false_eq_true, if_false] at hh
      refine ih _ (i + 1) c2 ?_ hh
      have hmem : (i + 1) ∉ c.autores.map Ej3a1.Autor.id := by
        intro hm
        obtain ⟨a, ha, haid⟩ := List.mem_map.mp hm
        have : c.autores.any (fun a => a.id == i + 1) = true :=
          List.any_eq_true.mpr ⟨a, ha, by simp [haid]⟩
        rw [hany] at this
        cases this
      simp [List.nodup_append, h, hmem]

/-- The books insertion loop preserves distinctness of the stored ids
(on success). -/
theorem insertar_libros_go_nodup :
    ∀ (libros : List (String × Int × Nat)) (c : Ej3a1.Conexion) (i : Nat)
      (c2 : Ej3a1.Conexion),
      (c.libros.map Ej3a1.Libro.id).Nodup →
      Ej3a1.insertar_libros_go c i libros = Except.ok c2 →
      (c2.libros.map Ej3a1.Libro.id).Nodup := by
  intro libros
  induction libros with
  | nil =>
    intro c i c2 h hh
    cases hh
    exact h
  | cons lib rest ih =>
    obtain ⟨titulo, anio, autor_id⟩ := lib
    intro c i c2 h hh
    unfold Ej3a1.insertar_libros_go at hh
    cases hany : c.libros.any (fun l => l.id == i + 1) with
    | true => rw [hany] at hh; cases hh
    | false =>
      rw [hany] at hh
      simp only [Bool.false_eq_true, if_false] at hh
      refine ih _ (i + 1) c2 ?_ hh
      have hmem : (i + 1) ∉ c.libros.map Ej3a1.Libro.id := by
        intro hm
        obtain ⟨l, hl, hlid⟩ := List.mem_map.mp hm
        have : c.libros.any (fun l => l.id == i + 1) = true :=
          List.any_eq_true.mpr ⟨l, hl, by simp [hlid]⟩
        rw [hany] at this
        cases this
      simp [List.nodup_append, h, hmem]

/-- C1: the claim says a book-creation request whose `author_id` matches no
existing author fails with a not-found error and persists nothing.  The
code does the opposite: on a database with *no* authors at all, both the
SQLite and the MongoDB `insertar_libros` succeed and persist the orphan
book (the SQLite exercise declares the foreign key but never enables
enforcement; the Mongo exercise performs no author lookup), even though
the declared `FOREIGN KEY` and the REST variant's documented 404 behaviour
show the check was intended. -/
theorem C1_orphan_book_inserted_eval :
    Ej3a1.insertar_libros ⟨[], []⟩ [("Huerfano", 2000, 999)] =
        Except.ok ⟨[], [⟨1, "Huerfano", 2000, 999⟩]⟩ ∧
    Ej3a4.insertar_libros ⟨[], [], 0⟩ [("Huerfano", 2000, "999")] =
        Except.ok (⟨[], [⟨0, "Huerfano", 2000, 999⟩], 1⟩, ["0"]) :=
  ⟨rfl, rfl⟩

/-- C2: in the schema-validated variant, an author payload carrying any key
beyond the declared set is rejected with a 400 and nothing is persisted,
even if all required keys are present and valid.  (The handler body is a
stub in the source; the schema gate is modelled from the spec.) -/
theorem C2_extra_key_rejected (st : Ej3b3.ApiState) (p : Ej3b3.Payload)
    (kv : String × Ej3b3.JsonVal) (hmem : kv ∈ p) (hk : kv.1 ≠ "name") :
    Ej3b3.add_author st p = (400, st) := by
  have hall : p.all (fun x => x.1 == "name") = false := by
    cases hall : p.all (fun x => x.1 == "name") with
    | false => rfl
    | true =>
      have := List.all_eq_true.mp hall kv hmem
      exact absurd (by simpa using this) hk
  unfold Ej3b3.add_author
  have hcs : Ej3b3.author_check_schema p = false := by
    unfold Ej3b3.author_check_schema
    rw [hall, Bool.and_false]
  rw [hcs]
  simp

/-- C2 witness: the extra-field payload of the repository's own test
(`{"name": "Ernest Hemingway", "age": 61}`) is rejected with 400 and the
state is unchanged. -/
theorem C2_extra_key_rejected_witness :
    Ej3b3.add_author ⟨[(1, "G")], 2⟩
        [("name", Ej3b3.JsonVal.str "Ernest Hemingway"),
         ("age", Ej3b3.JsonVal.num 61)] =
      (400, ⟨[(1, "G")], 2⟩) :=
  C2_extra_key_rejected ⟨[(1, "G")], 2⟩ _ ("age", Ej3b3.JsonVal.num 61)
    (by decide) (by decide)

/-- C5: the claim (and the function's own comment, and its caller in the
`__main__` block, which unpacks 2-tuples) says `buscar_libros_por_autor`
returns `(titulo, anio)` pairs ordered by year ascending.  The query
actually SELECTs three columns and has no `ORDER BY`: on an author with
books inserted out of year order it returns 3-tuples carrying the author
name, in insertion order `[2000, 1990]` rather than year-ascending. -/
theorem C5_triples_unordered_eval :
    Ej3a1.buscar_libros_por_autor
        ⟨[⟨1, "A"⟩], [⟨1, "B1", 2000, 1⟩, ⟨2, "B2", 1990, 1⟩]⟩ "A" =
      [("B1", 2000, "A"), ("B2", 1990, "A")] ∧
    (Ej3a1.buscar_libros_por_autor
        ⟨[⟨1, "A"⟩], [⟨1, "B1", 2000, 1⟩, ⟨2, "B2", 1990, 1⟩]⟩ "A").map
        (fun r => r.2.1) = [2000, 1990] := by
  constructor
  · rfl
  · rfl

/-- C10: in the MongoDB variant, `actualizar_libro` with both
`nuevo_titulo` and `nuevo_anio` equal to `None` returns `True` for every
database state and every id string — including ids of absent books and
strings that are not valid ObjectIds — without reading or writing the
store: the empty update dictionary short-circuits before the
`ObjectId` parse and before any `update_one` call. -/
theorem C10_empty_update_reports_success :
    ∀ (db : Ej3a4.MongoDB) (id_libro : String),
      Ej3a4.actualizar_libro db id_libro none none = Except.ok (true, db) := by
  intro db s
  simp [Ej3a4.actualizar_libro]

/-- C8 counterexample: ids are reused within a session.  With one book
inserted (it gets id 1), deleted, and a second single-book batch inserted,
the numbering restarts at 1 and the new book receives the previously
assigned id 1 again — refuting "every id assigned by an insert is distinct
from every id previously assigned in that session". -/
theorem C8_counterexample_id_reuse :
    Ej3a1.insertar_libros ⟨[⟨1, "A"⟩], []⟩ [("T1", 2000, 1)] =
        Except.ok ⟨[⟨1, "A"⟩], [⟨1, "T1", 2000, 1⟩]⟩ ∧
    (Ej3a1.eliminar_libro ⟨[⟨1, "A"⟩], [⟨1, "T1", 2000, 1⟩]⟩ 1).2 =
        ⟨[⟨1, "A"⟩], []⟩ ∧
    Ej3a1.insertar_libros ⟨[⟨1, "A"⟩], []⟩ [("T2", 2001, 1)] =
        Except.ok ⟨[⟨1, "A"⟩], [⟨1, "T2", 2001, 1⟩]⟩ :=
  ⟨rfl, rfl, rfl⟩

/-- C8 amended: the ids stored in a table are pairwise distinct at all
times — within one batched insert the `enumerate`-based ids are fresh, and
an insert whose id collides with a stored row fails on the primary-key
constraint instead of persisting a duplicate.  (The original claim fails:
numbering restarts at 1 on every call, so an id freed by a delete is
reassigned, and a second non-empty batch on a non-empty table errors out
rather than assigning fresh ids.) -/
theorem C8_amended_nodup_ids :
    (∀ (c c2 : Ej3a1.Conexion) (nombres : List String),
        (c.autores.map Ej3a1.Autor.id).Nodup →
        Ej3a1.insertar_autores c nombres = Except.ok c2 →
        (c2.autores.map Ej3a1.Autor.id).Nodup) ∧
    (∀ (c c2 : Ej3a1.Conexion) (libros : List (String × Int × Nat)),
        (c.libros.map Ej3a1.Libro.id).Nodup →
        Ej3a1.insertar_libros c libros = Except.ok c2 →
        (c2.libros.map Ej3a1.Libro.id).Nodup) :=
  ⟨fun c c2 nombres h hh => insertar_autores_go_nodup nombres c 0 c2 h hh,
   fun c c2 libros h hh => insertar_libros_go_nodup libros c 0 c2 h hh⟩

/-- C8 witness: inserting two books into an empty table yields the
distinct ids 1 and 2. -/
theorem C8_amended_nodup_ids_witness :
    (((⟨[], [⟨1, "T1", 2000, 1⟩, ⟨2, "T2", 2001, 1⟩]⟩ : Ej3a1.Conexion).libros.map
        Ej3a1.Libro.id).Nodup) :=
  C8_amended_nodup_ids.2 ⟨[], []⟩ ⟨[], [⟨1, "T1", 2000, 1⟩, ⟨2, "T2", 2001, 1⟩]⟩
    [("T1", 2000, 1), ("T2", 2001, 1)] (by decide) rfl

/-- C4 counterexample: the SQLite variant's update and delete return no
not-found signal.  The Python functions return `None` (here the `Unit`
first component) whether the id exists or not: on a store whose only book
has id 1, calls with the absent id 999 complete silently — the returned
value is the very value a present id yields, so nothing distinguishes the
not-found case — refuting "update and delete operations return a
not-found signal (they never silently succeed)". -/
theorem C4_counterexample_no_signal :
    Ej3a1.eliminar_libro ⟨[⟨1, "A"⟩], [⟨1, "T", 2000, 1⟩]⟩ 999 =
        ((), ⟨[⟨1, "A"⟩], [⟨1, "T", 2000, 1⟩]⟩) ∧
    (Ej3a1.eliminar_libro ⟨[⟨1, "A"⟩], [⟨1, "T", 2000, 1⟩]⟩ 999).1 =
        (Ej3a1.eliminar_libro ⟨[⟨1, "A"⟩], [⟨1, "T", 2000, 1⟩]⟩ 1).1 ∧
    Ej3a1.actualizar_libro ⟨[⟨1, "A"⟩], [⟨1, "T", 2000, 1⟩]⟩ 999
        (some "X") (some 2020) =
        ((), ⟨[⟨1, "A"⟩], [⟨1, "T", 2000, 1⟩]⟩) := by
  refine ⟨rfl, rfl, ?_⟩
  decide

/-- C4 amended: update and delete on a non-existent id never create a
record and leave the store unchanged in both variants; the MongoDB variant
returns `False` as the not-found signal (for delete, and for every update
supplying at least one field — an update supplying none returns `True`
without an existence check, see C10), but the SQLite variant returns
nothing at all, so its callers get no signal. -/
theorem C4_amended_existence_gated :
    (∀ (c : Ej3a1.Conexion) (idl : Nat),
        (∀ l ∈ c.libros, l.id ≠ idl) →
        Ej3a1.eliminar_libro c idl = ((), c)) ∧
    (∀ (c : Ej3a1.Conexion) (idl : Nat) (t : Option String) (y : Option Int),
        (∀ l ∈ c.libros, l.id ≠ idl) →
        Ej3a1.actualizar_libro c idl t y = ((), c)) ∧
    (∀ (db : Ej3a4.MongoDB) (s : String) (oid : Nat),
        Ej3a4.parseObjectId s = some oid →
        (∀ l ∈ db.libros, l.oid ≠ oid) →
        Ej3a4.eliminar_libro db s = Except.ok (false, db)) ∧
    (∀ (db : Ej3a4.MongoDB) (s : String) (oid : Nat)
        (t : Option String) (y : Option Int),
        ¬(t = none ∧ y = none) →
        Ej3a4.parseObjectId s = some oid →
        (∀ l ∈ db.libros, l.oid ≠ oid) →
        Ej3a4.actualizar_libro db s t y = Except.ok (false, db)) := by
  refine ⟨?_, ?_, ?_, ?_⟩
  · intro c idl h
    unfold Ej3a1.eliminar_libro
    have : c.libros.filter (fun l => !(l.id == idl)) = c.libros :=
      List.filter_eq_self.mpr (fun a ha => by simp [h a ha])
    rw [this]
  · intro c idl t y h
    unfold Ej3a1.actualizar_libro
    have h1 : c.libros.map (Ej3a1.setTitulo (t.getD "") idl) = c.libros :=
      map_eq_self_of _ _ (fun l hl => by
        unfold Ej3a1.setTitulo
        simp [h l hl])
    have h2 : c.libros.map (Ej3a1.setAnio (y.getD 0) idl) = c.libros :=
      map_eq_self_of _ _ (fun l hl => by
        unfold Ej3a1.setAnio
        simp [h l hl])
    cases Ej3a1.truthyStr t <;> cases Ej3a1.truthyInt y <;> simp [h1, h2]
  · intro db s oid hp h
    unfold Ej3a4.eliminar_libro
    rw [hp]
    simp [delete_one_not_found oid db.libros h]
  · intro db s oid t y h0 hp h
    unfold Ej3a4.actualizar_libro
    rw [if_neg h0]
    rw [hp]
    simp [update_one_not_found oid _ db.libros h]

/-- C4 witness: concrete runs of all four amended statements on stores
whose only book has id/oid 1, using the absent id 999; the MongoDB update
supplies both a title and a year. -/
theorem C4_amended_existence_gated_witness :
    Ej3a1.eliminar_libro ⟨[⟨1, "A"⟩], [⟨1, "T", 2000, 1⟩]⟩ 999 =
        ((), ⟨[⟨1, "A"⟩], [⟨1, "T", 2000, 1⟩]⟩) ∧
    Ej3a1.actualizar_libro ⟨[⟨1, "A"⟩], [⟨1, "T", 2000, 1⟩]⟩ 999
        (some "X") none =
        ((), ⟨[⟨1, "A"⟩], [⟨1, "T", 2000, 1⟩]⟩) ∧
    Ej3a4.eliminar_libro ⟨[], [⟨1, "T", 2000, 7⟩], 5⟩ "999" =
        Except.ok (false, ⟨[], [⟨1, "T", 2000, 7⟩], 5⟩) ∧
    Ej3a4.actualizar_libro ⟨[], [⟨1, "T", 2000, 7⟩], 5⟩ "999"
        (some "X") (some 2020) =
        Except.ok (false, ⟨[], [⟨1, "T", 2000, 7⟩], 5⟩) :=
  ⟨C4_amended_existence_gated.1 _ 999 (by decide),
   C4_amended_existence_gated.2.1 _ 999 (some "X") none (by decide),
   C4_amended_existence_gated.2.2.1 _ "999" 999 rfl (by decide),
   C4_amended_existence_gated.2.2.2 _ "999" 999 (some "X") (some 2020)
     (by simp) rfl (by decide)⟩

/-- C3 counterexample: the SQLite variant treats a supplied falsy value as
an omission, not as a supplied value.  Updating the book titled "Old" with
the explicitly supplied new title `""` (and likewise with the supplied year
`0`) changes nothing, because the code guards each write with Python
truthiness (`if nuevo_titulo:`) instead of `is not None` — refuting
"supplying a falsy value is treated as a supplied value". -/
theorem C3_counterexample_falsy_ignored :
    Ej3a1.actualizar_libro ⟨[⟨1, "A"⟩], [⟨1, "Old", 2000, 1⟩]⟩ 1 (some "") none =
        ((), ⟨[⟨1, "A"⟩], [⟨1, "Old", 2000, 1⟩]⟩) ∧
    Ej3a1.actualizar_libro ⟨[⟨1, "A"⟩], [⟨1, "Old", 2000, 1⟩]⟩ 1 none (some 0) =
        ((), ⟨[⟨1, "A"⟩], [⟨1, "Old", 2000, 1⟩]⟩) ∧
    (Ej3a1.actualizar_libro ⟨[⟨1, "A"⟩], [⟨1, "Old", 2000, 1⟩]⟩ 1
        (some "") none).2.libros ≠ [⟨1, "", 2000, 1⟩] := by
  refine ⟨?_, ?_, ?_⟩ <;> decide

/-- C3 amended: a partial update changes only the supplied fields and an
omitted field keeps its prior value — but the two variants disagree on
falsy values.  In the SQLite variant omissions *and* falsy supplied values
(`""`, `0`) leave the record untouched, a year-only update preserves id,
title and author of every row, and a title-only update preserves id, year
and author of every row.  In the MongoDB variant only `None` counts as
omission: for every database, every valid id string and *every* supplied
value — including the falsy `""` title and the falsy `0` year — a
title-only update writes that title to the matched document and preserves
id, year and author of every document, and a year-only update writes that
year and preserves id, title and author of every document. -/
theorem C3_amended_partial_update :
    (∀ (c : Ej3a1.Conexion) (idl : Nat),
        Ej3a1.actualizar_libro c idl none none = ((), c)) ∧
    (∀ (c : Ej3a1.Conexion) (idl : Nat),
        Ej3a1.actualizar_libro c idl (some "") (some 0) = ((), c)) ∧
    (∀ (c : Ej3a1.Conexion) (idl : Nat) (y : Int), y ≠ 0 →
        ((Ej3a1.actualizar_libro c idl none (some y)).2.libros.map
            (fun l => (l.id, l.titulo, l.autor_id))) =
          c.libros.map (fun l => (l.id, l.titulo, l.autor_id))) ∧
    (∀ (c : Ej3a1.Conexion) (idl : Nat) (t : String), t ≠ "" →
        ((Ej3a1.actualizar_libro c idl (some t) none).2.libros.map
            (fun l => (l.id, l.anio, l.autor_id))) =
          c.libros.map (fun l => (l.id, l.anio, l.autor_id))) ∧
    (∀ (db : Ej3a4.MongoDB) (s : String) (oid : Nat) (t : String),
        Ej3a4.parseObjectId s = some oid →
        ∃ (b : Bool) (db2 : Ej3a4.MongoDB),
          Ej3a4.actualizar_libro db s (some t) none = Except.ok (b, db2) ∧
          db2.libros.map (fun l => (l.oid, l.anio, l.autor_id)) =
            db.libros.map (fun l => (l.oid, l.anio, l.autor_id)) ∧
          (db2.libros.find? (fun l => l.oid == oid)).map Ej3a4.LibroDoc.titulo =
            (db.libros.find? (fun l => l.oid == oid)).map (fun _ => t)) ∧
    (∀ (db : Ej3a4.MongoDB) (s : String) (oid : Nat) (y : Int),
        Ej3a4.parseObjectId s = some oid →
        ∃ (b : Bool) (db2 : Ej3a4.MongoDB),
          Ej3a4.actualizar_libro db s none (some y) = Except.ok (b, db2) ∧
          db2.libros.map (fun l => (l.oid, l.titulo, l.autor_id)) =
            db.libros.map (fun l => (l.oid, l.titulo, l.autor_id)) ∧
          (db2.libros.find? (fun l => l.oid == oid)).map Ej3a4.LibroDoc.anio =
            (db.libros.find? (fun l => l.oid == oid)).map (fun _ => y)) := by
  refine ⟨?_, ?_, ?_, ?_, ?_, ?_⟩
  · intro c idl
    rfl
  · intro c idl
    simp [Ej3a1.actualizar_libro, Ej3a1.truthyStr, Ej3a1.truthyInt]
  · intro c idl y hy
    have ht : Ej3a1.truthyInt (some y) = true := by
      simp [Ej3a1.truthyInt, hy]
    simp only [Ej3a1.actualizar_libro, Ej3a1.truthyStr, ht, Bool.false_eq_true,
      if_false, if_true, Option.getD_some]
    rw [List.map_map]
    refine List.map_congr_left ?_
    intro l _
    unfold Ej3a1.setAnio
    by_cases h : (l.id == idl) = true <;> simp [h, Function.comp]
  · intro c idl t ht0
    have ht : Ej3a1.truthyStr (some t) = true := by
      simp [Ej3a1.truthyStr, ht0]
    simp only [Ej3a1.actualizar_libro, Ej3a1.truthyInt, ht, Bool.false_eq_true,
      if_false, if_true, Option.getD_some]
    rw [List.map_map]
    refine List.map_congr_left ?_
    intro l _
    unfold Ej3a1.setTitulo
    by_cases h : (l.id == idl) = true <;> simp [h, Function.comp]
  · intro db s oid t hp
    refine ⟨(Ej3a4.update_one oid (Ej3a4.setCampos (some t) none) db.libros).1,
      { db with
        libros := (Ej3a4.update_one oid (Ej3a4.setCampos (some t) none) db.libros).2 },
      ?_, ?_, ?_⟩
    · unfold Ej3a4.actualizar_libro
      rw [if_neg (by simp), hp]
    · exact update_one_map_frame oid _ _ (fun x => by cases x; rfl) db.libros
    · rw [update_one_find oid _ (fun x => by cases x; rfl) db.libros,
        Option.map_map]
      rfl
  · intro db s oid y hp
    refine ⟨(Ej3a4.update_one oid (Ej3a4.setCampos none (some y)) db.libros).1,
      { db with
        libros := (Ej3a4.update_one oid (Ej3a4.setCampos none (some y)) db.libros).2 },
      ?_, ?_, ?_⟩
    · unfold Ej3a4.actualizar_libro
      rw [if_neg (by simp), hp]
    · exact update_one_map_frame oid _ _ (fun x => by cases x; rfl) db.libros
    · rw [update_one_find oid _ (fun x => by cases x; rfl) db.libros,
        Option.map_map]
      rfl

/-- C3 witness: on concrete one-book stores, the SQLite year-only (2020)
and title-only ("New") updates keep the other fields of every row, and
the MongoDB title-only update supplying the falsy `""` succeeds, writes
the empty title to the matched document and keeps its year and author. -/
theorem C3_amended_partial_update_witness :
    ((Ej3a1.actualizar_libro ⟨[⟨1, "A"⟩], [⟨1, "Old", 2000, 1⟩]⟩ 1 none
        (some 2020)).2.libros.map (fun l => (l.id, l.titulo, l.autor_id))) =
      (⟨[⟨1, "A"⟩], [⟨1, "Old", 2000, 1⟩]⟩ : Ej3a1.Conexion).libros.map
        (fun l => (l.id, l.titulo, l.autor_id)) ∧
    ((Ej3a1.actualizar_libro ⟨[⟨1, "A"⟩], [⟨1, "Old", 2000, 1⟩]⟩ 1 (some "New")
        none).2.libros.map (fun l => (l.id, l.anio, l.autor_id))) =
      (⟨[⟨1, "A"⟩], [⟨1, "Old", 2000, 1⟩]⟩ : Ej3a1.Conexion).libros.map
        (fun l => (l.id, l.anio, l.autor_id)) ∧
    ∃ (b : Bool) (db2 : Ej3a4.MongoDB),
      Ej3a4.actualizar_libro ⟨[], [⟨5, "Old", 2000, 7⟩], 9⟩ "5" (some "") none =
          Except.ok (b, db2) ∧
      db2.libros.map (fun l => (l.oid, l.anio, l.autor_id)) =
        (⟨[], [⟨5, "Old", 2000, 7⟩], 9⟩ : Ej3a4.MongoDB).libros.map
          (fun l => (l.oid, l.anio, l.autor_id)) ∧
      (db2.libros.find? (fun l => l.oid == 5)).map Ej3a4.LibroDoc.titulo =
        ((⟨[], [⟨5, "Old", 2000, 7⟩], 9⟩ : Ej3a4.MongoDB).libros.find?
            (fun l => l.oid == 5)).map (fun _ => "") :=
  ⟨C3_amended_partial_update.2.2.1 ⟨[⟨1, "A"⟩], [⟨1, "Old", 2000, 1⟩]⟩ 1 2020
      (by decide),
   C3_amended_partial_update.2.2.2.1 ⟨[⟨1, "A"⟩], [⟨1, "Old", 2000, 1⟩]⟩ 1 "New"
      (by decide),
   C3_amended_partial_update.2.2.2.2.1 ⟨[], [⟨5, "Old", 2000, 7⟩], 9⟩ "5" 5 ""
      rfl⟩

/-- C6 counterexample: the SQLite variant's `consultar_libros` has no
`ORDER BY`, so its rows are *not* ordered by author name then title.  With
authors "Zeta" (id 1) and "Alpha" (id 2) and one book each, the join
returns the "Zeta" row first (table order), violating the claimed
name-then-title order (rendered by the sort key `RowLe` the MongoDB
variant uses). -/
theorem C6_counterexample_unsorted_sqlite :
    Ej3a1.consultar_libros
        ⟨[⟨1, "Zeta"⟩, ⟨2, "Alpha"⟩], [⟨1, "T1", 2000, 1⟩, ⟨2, "T2", 2001, 2⟩]⟩ =
      [("T1", 2000, "Zeta"), ("T2", 2001, "Alpha")] ∧
    ¬ List.Sorted Ej3a4.RowLe
        (Ej3a1.consultar_libros
          ⟨[⟨1, "Zeta"⟩, ⟨2, "Alpha"⟩], [⟨1, "T1", 2000, 1⟩, ⟨2, "T2", 2001, 2⟩]⟩) := by
  refine ⟨rfl, ?_⟩
  decide

/-- C6 amended: listing books with authors is deterministic in both
variants, but only the MongoDB variant orders the output: its pipeline
returns exactly the lookup join rows (`$unwind` inner-join semantics),
sorted by author name then title via `$sort`.  The SQLite variant performs
the same join with no `ORDER BY` and yields rows in table order. -/
theorem C6_amended_join_order :
    ∀ db : Ej3a4.MongoDB,
      List.Sorted Ej3a4.RowLe (Ej3a4.consultar_libros db) ∧
      (Ej3a4.consultar_libros db).Perm (Ej3a4.joinRows db) :=
  fun db =>
    ⟨List.sorted_insertionSort Ej3a4.RowLe (Ej3a4.joinRows db),
     List.perm_insertionSort Ej3a4.RowLe (Ej3a4.joinRows db)⟩

/-- C7: when every book's `author_id` resolves to exactly one stored
author, listing books with authors yields exactly one author-name row per
book — the name of the author the book references — with no book row
duplicated or dropped, in both variants: the SQLite join returns exactly
the per-book rows in book order, and the MongoDB pipeline returns a
permutation of those per-book rows (its `$sort` reorders them), one per
book. -/
theorem C7_join_exactly_one :
    (∀ s : Ej3a1.Conexion,
        (∀ l ∈ s.libros,
            (s.autores.filter (fun a => a.id == l.autor_id)).length = 1) →
        Ej3a1.consultar_libros s =
            s.libros.map
              (fun l => (l.titulo, l.anio, Ej3a1.autorNombre s l.autor_id)) ∧
        (Ej3a1.consultar_libros s).length = s.libros.length) ∧
    (∀ db : Ej3a4.MongoDB,
        (∀ l ∈ db.libros,
            (db.autores.filter (fun a => a.oid == l.autor_id)).length = 1) →
        (Ej3a4.consultar_libros db).Perm
            (db.libros.map
              (fun l => (l.titulo, l.anio, Ej3a4.autorNombre db l.autor_id))) ∧
        (Ej3a4.consultar_libros db).length = db.libros.length) := by
  constructor
  · intro s h
    have hmap : Ej3a1.consultar_libros s =
        s.libros.map (fun l => (l.titulo, l.anio, Ej3a1.autorNombre s l.autor_id)) := by
      refine flatMap_eq_map_of_singleton _ _ s.libros ?_
      intro l hl
      obtain ⟨a, ha⟩ := List.length_eq_one.mp (h l hl)
      rw [ha]
      have hfind := find_eq_of_filter_singleton _ s.autores a ha
      simp [Ej3a1.autorNombre, hfind]
    exact ⟨hmap, by rw [hmap, List.length_map]⟩
  · intro db h
    have hmap : Ej3a4.joinRows db =
        db.libros.map (fun l => (l.titulo, l.anio, Ej3a4.autorNombre db l.autor_id)) := by
      refine flatMap_eq_map_of_singleton _ _ db.libros ?_
      intro l hl
      obtain ⟨a, ha⟩ := List.length_eq_one.mp (h l hl)
      rw [ha]
      have hfind := find_eq_of_filter_singleton _ db.autores a ha
      simp [Ej3a4.autorNombre, hfind]
    have hperm : (Ej3a4.consultar_libros db).Perm (Ej3a4.joinRows db) :=
      List.perm_insertionSort Ej3a4.RowLe (Ej3a4.joinRows db)
    refine ⟨hmap ▸ hperm, ?_⟩
    rw [hperm.length_eq, hmap, List.length_map]

/-- C7 witness: one author and two of that author's books in each variant;
the SQLite join yields one row per book with the resolved name, and the
MongoDB pipeline yields a permutation of those rows, one per book. -/
theorem C7_join_exactly_one_witness :
    (Ej3a1.consultar_libros ⟨[⟨1, "A"⟩], [⟨1, "T1", 2000, 1⟩, ⟨2, "T2", 2001, 1⟩]⟩ =
        (⟨[⟨1, "A"⟩], [⟨1, "T1", 2000, 1⟩, ⟨2, "T2", 2001, 1⟩]⟩ : Ej3a1.Conexion).libros.map
          (fun l => (l.titulo, l.anio,
            Ej3a1.autorNombre ⟨[⟨1, "A"⟩], [⟨1, "T1", 2000, 1⟩, ⟨2, "T2", 2001, 1⟩]⟩
              l.autor_id)) ∧
    (Ej3a1.consultar_libros
        ⟨[⟨1, "A"⟩], [⟨1, "T1", 2000, 1⟩, ⟨2, "T2", 2001, 1⟩]⟩).length =
      (⟨[⟨1, "A"⟩], [⟨1, "T1", 2000, 1⟩, ⟨2, "T2", 2001, 1⟩]⟩ : Ej3a1.Conexion).libros.length) ∧
    ((Ej3a4.consultar_libros ⟨[⟨1, "A"⟩], [⟨10, "T1", 2000, 1⟩, ⟨11, "T2", 2001, 1⟩], 12⟩).Perm
        ((⟨[⟨1, "A"⟩], [⟨10, "T1", 2000, 1⟩, ⟨11, "T2", 2001, 1⟩], 12⟩ : Ej3a4.MongoDB).libros.map
          (fun l => (l.titulo, l.anio,
            Ej3a4.autorNombre ⟨[⟨1, "A"⟩], [⟨10, "T1", 2000, 1⟩, ⟨11, "T2", 2001, 1⟩], 12⟩
              l.autor_id))) ∧
    (Ej3a4.consultar_libros
        ⟨[⟨1, "A"⟩], [⟨10, "T1", 2000, 1⟩, ⟨11, "T2", 2001, 1⟩], 12⟩).length =
      (⟨[⟨1, "A"⟩], [⟨10, "T1", 2000, 1⟩, ⟨11, "T2", 2001, 1⟩], 12⟩ : Ej3a4.MongoDB).libros.length) :=
  ⟨C7_join_exactly_one.1 ⟨[⟨1, "A"⟩], [⟨1, "T1", 2000, 1⟩, ⟨2, "T2", 2001, 1⟩]⟩
      (by decide),
   C7_join_exactly_one.2 ⟨[⟨1, "A"⟩], [⟨10, "T1", 2000, 1⟩, ⟨11, "T2", 2001, 1⟩], 12⟩
      (by decide)⟩

/-- Writing the same title twice is the same as writing it once. -/
theorem setTitulo_setTitulo (t : String) (idl : Nat) (l : Ej3a1.Libro) :
    Ej3a1.setTitulo t idl (Ej3a1.setTitulo t idl l) = Ej3a1.setTitulo t idl l := by
  unfold Ej3a1.setTitulo
  by_cases h : (l.id == idl) = true <;> simp [h]

/-- Writing the same year twice is the same as writing it once. -/
theorem setAnio_setAnio (y : Int) (idl : Nat) (l : Ej3a1.Libro) :
    Ej3a1.setAnio y idl (Ej3a1.setAnio y idl l) = Ej3a1.setAnio y idl l := by
  unfold Ej3a1.setAnio
  by_cases h : (l.id == idl) = true <;> simp [h]

/-- Re-running a title-write followed by a year-write changes nothing the
second time. -/
theorem setAnio_setTitulo_idem (t : String) (y : Int) (idl : Nat)
    (l : Ej3a1.Libro) :
    Ej3a1.setAnio y idl (Ej3a1.setTitulo t idl
        (Ej3a1.setAnio y idl (Ej3a1.setTitulo t idl l))) =
      Ej3a1.setAnio y idl (Ej3a1.setTitulo t idl l) := by
  unfold Ej3a1.setTitulo Ej3a1.setAnio
  by_cases h : (l.id == idl) = true <;> simp [h]

/-- C9: applying the same partial update twice leaves the store in the
state one application produces.  In the SQLite variant the second run of
`actualizar_libro` (same arguments) is a state-level no-op; in the MongoDB
variant, whenever the first `actualizar_libro` succeeded, the second run
with the same arguments succeeds and returns the first run's state
unchanged (its `modified_count` may drop to 0, but the stored record is
identical). -/
theorem C9_update_idempotent :
    (∀ (c : Ej3a1.Conexion) (idl : Nat) (t : Option String) (y : Option Int),
        (∃ l ∈ c.libros, l.id = idl) →
        (Ej3a1.actualizar_libro (Ej3a1.actualizar_libro c idl t y).2 idl t y).2 =
          (Ej3a1.actualizar_libro c idl t y).2) ∧
    (∀ (db : Ej3a4.MongoDB) (s : String) (t : Option String) (y : Option Int)
        (b1 : Bool) (db1 : Ej3a4.MongoDB),
        Ej3a4.actualizar_libro db s t y = Except.ok (b1, db1) →
        ∃ b2 : Bool, Ej3a4.actualizar_libro db1 s t y = Except.ok (b2, db1)) := by
  constructor
  · intro c idl t y _
    cases ht : Ej3a1.truthyStr t <;> cases hy : Ej3a1.truthyInt y <;>
      simp only [Ej3a1.actualizar_libro, ht, hy, Bool.false_eq_true, if_false,
        if_true, Prod.snd, List.map_map]
    · exact congrArg (fun L => Ej3a1.Conexion.mk c.autores L)
        (List.map_congr_left (fun l _ => by
          simp only [Function.comp_apply]
          exact setAnio_setAnio (y.getD 0) idl l))
    · exact congrArg (fun L => Ej3a1.Conexion.mk c.autores L)
        (List.map_congr_left (fun l _ => by
          simp only [Function.comp_apply]
          exact setTitulo_setTitulo (t.getD "") idl l))
    · exact congrArg (fun L => Ej3a1.Conexion.mk c.autores L)
        (List.map_congr_left (fun l _ => by
          simp only [Function.comp_apply]
          exact setAnio_setTitulo_idem (t.getD "") (y.getD 0) idl l))
  · intro db s t y b1 db1 h
    by_cases h0 : t = none ∧ y = none
    · obtain ⟨rfl, rfl⟩ := h0
      simp only [Ej3a4.actualizar_libro, and_self, if_true] at h ⊢
      obtain ⟨rfl, rfl⟩ : true = b1 ∧ db = db1 := by
        simpa [Prod.ext_iff] using h
      exact ⟨true, rfl⟩
    · cases hp : Ej3a4.parseObjectId s with
      | none =>
        rw [Ej3a4.actualizar_libro, if_neg h0, hp] at h
        cases h
      | some oid =>
        rw [Ej3a4.actualizar_libro, if_neg h0, hp] at h
        obtain ⟨hb, hdb⟩ : _ ∧ _ = db1 := by
          simpa [Prod.ext_iff] using h
        rw [Ej3a4.actualizar_libro, if_neg h0, hp]
        refine ⟨(Ej3a4.update_one oid (Ej3a4.setCampos t y) db1.libros).1, ?_⟩
        have hlib : (Ej3a4.update_one oid (Ej3a4.setCampos t y) db1.libros).2 =
            db1.libros := by
          rw [← hdb]
          exact update_one_idem oid (Ej3a4.setCampos t y)
            (setCampos_idem t y) (setCampos_oid t y) db.libros
        rw [← hdb]
        simp only [hlib]
        rw [← hdb] at hlib
        simp [hlib]

/-- C9 witness: applying the year-only update (2020) twice on concrete
one-book stores in each variant reproduces the once-updated state. -/
theorem C9_update_idempotent_witness :
    (Ej3a1.actualizar_libro
        (Ej3a1.actualizar_libro ⟨[⟨1, "A"⟩], [⟨1, "T", 2000, 1⟩]⟩ 1 none
          (some 2020)).2 1 none (some 2020)).2 =
      (Ej3a1.actualizar_libro ⟨[⟨1, "A"⟩], [⟨1, "T", 2000, 1⟩]⟩ 1 none
        (some 2020)).2 ∧
    ∃ b2 : Bool,
      Ej3a4.actualizar_libro ⟨[], [⟨1, "T", 2020, 7⟩], 5⟩ "1" none (some 2020) =
        Except.ok (b2, ⟨[], [⟨1, "T", 2020, 7⟩], 5⟩) :=
  ⟨C9_update_idempotent.1 ⟨[⟨1, "A"⟩], [⟨1, "T", 2000, 1⟩]⟩ 1 none (some 2020)
      ⟨⟨1, "T", 2000, 1⟩, by decide⟩,
   C9_update_idempotent.2 ⟨[], [⟨1, "T", 2000, 7⟩], 5⟩ "1" none (some 2020) true
      ⟨[], [⟨1, "T", 2020, 7⟩], 5⟩ rfl⟩
